import Mathlib

/-!
Shallow embedding of the realtime chat client in
`src/components/enhanced-chat-app.tsx` (EnhancedChatAppComponent).

The component's protocol logic is embedded as pure Lean functions over an
explicit application state:
* the payload cipher (`encryptMessage` / `decryptMessage`),
* the socket event handlers (`initial messages`, `chat message`,
  `user typing`, `message status updated`, `room created`),
* the outbound operations (`handleSendMessage`, `handleTyping`),
* the rendered view (`filteredMessages`).

React `useState` setters become explicit state-passing; `socket.emit` calls
become an explicit list of `Emission` values; a JavaScript exception thrown
inside a handler (the only possibility is the cipher's malformed-data error)
is modelled by an `Option`-valued handler returning `none`.
-/

/-! ## Payload cipher

The source delegates to the third-party `CryptoJS.AES` passphrase API:

  encryptMessage(message) = CryptoJS.AES.encrypt(message, secretKey).toString()
  decryptMessage(ciphertext) =
    CryptoJS.AES.decrypt(ciphertext, secretKey).toString(CryptoJS.enc.Utf8)

That library is not part of this repository, so it is modelled here by an
executable symmetric keystream cipher over Unicode code points that keeps the
library's observable contract: decrypting with the encryption passphrase
returns the plaintext verbatim; decrypting with a different passphrase yields
key-dependent garbage code points which are either silently assembled into a
string (when they happen to be valid scalar values, mirroring CryptoJS
returning a garbage or empty string) or fail the validity check (`none`,
mirroring the generic "Malformed UTF-8 data" error thrown by
`toString(CryptoJS.enc.Utf8)`).  Neither the library nor the source defines
any `PayloadDecryptionError`, and `decryptMessage` contains no `try`/`catch`.
-/

/-- Key material of a passphrase: its code points (stands in for the KDF). -/
def keyBytes (key : String) : List Nat :=
  key.data.map Char.toNat

/-- Keystream value at position `i`, cycling the key material. -/
def keyAt (key : String) (i : Nat) : Nat :=
  ((keyBytes key).get? (i % (keyBytes key).length)).getD 0

/-- XOR a code-point stream with the keystream starting at position `i`.
Self-inverse for a fixed key, as a symmetric cipher core. -/
def xorStream (key : String) (i : Nat) : List Nat → List Nat
  | [] => []
  | b :: bs => (b ^^^ keyAt key i) :: xorStream key (i + 1) bs

/-- Reassemble one decrypted code point, failing on an invalid scalar value
(models the malformed-data error of `toString(CryptoJS.enc.Utf8)`). -/
def toValidChar (n : Nat) : Option Char :=
  if h : n.isValidChar then some (Char.ofNatAux n h) else none

/-- Reassemble a decrypted code-point list; `none` as soon as one code point
is invalid. -/
def decodeChars : List Nat → Option (List Char)
  | [] => some []
  | n :: ns =>
    match toValidChar n, decodeChars ns with
    | some c, some cs => some (c :: cs)
    | _, _ => none

/-- Decoded string of a decrypted code-point list. -/
def decodeCodepoints (l : List Nat) : Option String :=
  (decodeChars l).map List.asString

/-- Key selection of the source: `process.env.NEXT_PUBLIC_ENCRYPTION_KEY ||
'default-secret-key'`.  The environment variable is the `Option String`
argument. -/
def secretKey (envKey : Option String) : String :=
  envKey.getD "default-secret-key"

/-- Embedding of `encryptMessage`: encrypt the message's code points under
the configured key.  The resulting code-point list stands for the cipher-text
string the library would return. -/
def encryptMessage (envKey : Option String) (message : String) : List Nat :=
  xorStream (secretKey envKey) 0 (message.data.map Char.toNat)

/-- Embedding of `decryptMessage`: decrypt under the configured key and
reassemble the string; `none` models the un-caught malformed-data exception
of `bytes.toString(CryptoJS.enc.Utf8)`. -/
def decryptMessage (envKey : Option String) (ciphertext : List Nat) : Option String :=
  decodeCodepoints (xorStream (secretKey envKey) 0 ciphertext)

/-! ## Data model (the `type` declarations of the source) -/

/-- `type MessageType = 'text' | 'image' | 'video' | 'file'`. -/
inductive MessageType where
  | text | image | video | file
deriving DecidableEq, Repr

/-- Delivery status: `'sent' | 'delivered' | 'read'`. -/
inductive Status where
  | sent | delivered | read
deriving DecidableEq, Repr

/-- The `user` field of a `Message`. -/
structure UserInfo where
  name : String
  image : String
deriving DecidableEq, Repr

/-- An element of a `Room`'s `users` list. -/
structure RoomUser where
  id : String
  name : String
  image : String
deriving DecidableEq, Repr

/-- `type Room = { id, name, users }`. -/
structure Room where
  id : String
  name : String
  users : List RoomUser
deriving DecidableEq, Repr

/-- A message as delivered on the wire: the declared `Message` fields plus
the `roomId` the handlers read, with cipher-text `content`. -/
structure WireMessage where
  id : String
  roomId : String
  content : List Nat
  type : MessageType
  createdAt : String
  status : Status
  userId : String
  user : UserInfo
deriving DecidableEq, Repr

/-- A stored message: same shape with decrypted (plaintext) `content`. -/
structure Message where
  id : String
  roomId : String
  content : String
  type : MessageType
  createdAt : String
  status : Status
  userId : String
  user : UserInfo
deriving DecidableEq, Repr

/-- The component state touched by the protocol logic: the `useState` cells
`rooms`, `selectedRoom`, `messages`, `newMessage`, `isTyping`,
`searchQuery`. -/
structure AppState where
  rooms : List Room
  selectedRoom : Option Room
  messages : List Message
  newMessage : String
  isTyping : Bool
  searchQuery : String
deriving DecidableEq, Repr

/-- Outbound `socket.emit` calls observable from the embedded operations. -/
inductive Emission where
  | chatMessage (roomId : String) (content : List Nat) (type : MessageType)
  | typing (roomId : String) (isTyping : Bool)
deriving DecidableEq, Repr

/-! ## Socket event handlers

Each `socketRef.current.on(...)` handler becomes a function on `AppState`.
The effect re-registers handlers whenever `selectedRoom` changes, so every
handler reads the current `selectedRoom` — modelled by passing the current
state.  Handlers that call `decryptMessage` may hit its un-caught
malformed-data exception, in which case the `setMessages` call never runs and
no state update happens: such handlers return `Option AppState` with `none`
for the crashed run. -/

/-- Decrypt a wire message into a stored message, exactly as the handlers do
with `{ ...msg, content: decryptMessage(msg.content) }`. -/
def decryptWire (envKey : Option String) (w : WireMessage) : Option Message :=
  (decryptMessage envKey w.content).map fun c =>
    { id := w.id, roomId := w.roomId, content := c, type := w.type,
      createdAt := w.createdAt, status := w.status, userId := w.userId,
      user := w.user }

/-- Decrypt a whole delivered list; `none` as soon as one message's
decryption throws (`initialMessages.map(...)` dies on the first throw). -/
def decryptAll (envKey : Option String) : List WireMessage → Option (List Message)
  | [] => some []
  | w :: ws =>
    match decryptWire envKey w, decryptAll envKey ws with
    | some m, some ms => some (m :: ms)
    | _, _ => none

/-- Handler of `'initial messages'`: if the event's room is the selected
room, replace `messages` with the decrypted list; otherwise ignore. -/
def onInitialMessages (envKey : Option String) (st : AppState)
    (roomId : String) (initial : List WireMessage) : Option AppState :=
  if st.selectedRoom.map Room.id = some roomId then
    (decryptAll envKey initial).map fun ms => { st with messages := ms }
  else
    some st

/-- Handler of `'chat message'`: if the message's room is the selected room,
append the decrypted message to `messages`; otherwise ignore.  There is no
duplicate check of any kind. -/
def onChatMessage (envKey : Option String) (st : AppState)
    (w : WireMessage) : Option AppState :=
  if st.selectedRoom.map Room.id = some w.roomId then
    (decryptWire envKey w).map fun m => { st with messages := st.messages ++ [m] }
  else
    some st

/-- Handler of `'user typing'`: `if (userId !== session.user.id)
setIsTyping(isTyping)`. -/
def onUserTyping (localId : String) (st : AppState)
    (userId : String) (isTyping : Bool) : AppState :=
  if userId ≠ localId then { st with isTyping := isTyping } else st

/-- The `setMessages` body of the `'message status updated'` handler: map
over all messages and overwrite the status of the one with the matching id.
The incoming status is applied unconditionally. -/
def updateStatus (msgs : List Message) (messageId : String) (status : Status) :
    List Message :=
  msgs.map fun m => if m.id = messageId then { m with status := status } else m

/-- Handler of `'message status updated'`. -/
def onStatusUpdated (st : AppState) (messageId : String) (status : Status) :
    AppState :=
  { st with messages := updateStatus st.messages messageId status }

/-- Handler of `'room created'`: append the room to `rooms`. -/
def onRoomCreated (st : AppState) (room : Room) : AppState :=
  { st with rooms := st.rooms ++ [room] }

/-- Selecting a room in the sidebar: `setSelectedRoom(room)`.  Nothing else
about the message state changes (`setIsSidebarOpen(false)` only touches the
sidebar flag, which is not part of the protocol state). -/
def selectRoom (st : AppState) (room : Room) : AppState :=
  { st with selectedRoom := some room }

/-- One inbound or local event, for composing event sequences. -/
inductive ClientEvent where
  | selectRoom (room : Room)
  | initialMessages (roomId : String) (initial : List WireMessage)
  | chatMessage (w : WireMessage)
  | userTyping (userId : String) (isTyping : Bool)
  | statusUpdated (messageId : String) (status : Status)
  | roomCreated (room : Room)
deriving DecidableEq, Repr

/-- Apply one event to the state; `none` when the handler crashed on the
cipher's malformed-data exception. -/
def applyEvent (envKey : Option String) (localId : String) (st : AppState) :
    ClientEvent → Option AppState
  | .selectRoom r => some (selectRoom st r)
  | .initialMessages roomId initial => onInitialMessages envKey st roomId initial
  | .chatMessage w => onChatMessage envKey st w
  | .userTyping uid b => some (onUserTyping localId st uid b)
  | .statusUpdated mid s => some (onStatusUpdated st mid s)
  | .roomCreated r => some (onRoomCreated st r)

/-- Apply a sequence of events in order, stopping at a crashed handler. -/
def applyEvents (envKey : Option String) (localId : String) (st : AppState) :
    List ClientEvent → Option AppState
  | [] => some st
  | e :: es => (applyEvent envKey localId st e).bind fun st2 =>
      applyEvents envKey localId st2 es

/-! ## Outbound operations -/

/-- Embedding of JavaScript `String.prototype.trim`: drop leading and
trailing whitespace. -/
def jsTrim (s : String) : String :=
  ((s.data.dropWhile Char.isWhitespace).reverse.dropWhile Char.isWhitespace).reverse.asString

/-- Embedding of `handleSendMessage(type, content)`: only when the trimmed
content is non-empty and a room is selected, emit the encrypted payload and
clear the draft; otherwise do nothing at all.  `messages` is never touched. -/
def handleSendMessage (envKey : Option String) (st : AppState)
    (type : MessageType) (content : String) : AppState × List Emission :=
  match st.selectedRoom with
  | some room =>
    if jsTrim content ≠ "" then
      ({ st with newMessage := "" },
       [Emission.chatMessage room.id (encryptMessage envKey content) type])
    else
      (st, [])
  | none => (st, [])

/-! ## Rendered view -/

/-- The `includes` test of `filteredMessages`, over lowered code points. -/
def strIncludes (s q : String) : Bool :=
  decide (q.toLower.data <:+: s.toLower.data)

/-- Embedding of `filteredMessages()`: the rendered message list — all
messages when the search query is empty (falsy), else the content/author
filter. -/
def filteredMessages (st : AppState) : List Message :=
  if st.searchQuery = "" then st.messages
  else st.messages.filter fun m =>
    strIncludes m.content st.searchQuery || strIncludes m.user.name st.searchQuery

/-! ## Presence debouncer (`handleTyping`)

`handleTyping` runs on every keystroke while a room is selected: it emits
`typing=true` unconditionally, cancels any pending timeout and schedules a
new 2000 ms timeout that emits `typing=false`.  Modelled as a discrete-time
simulation over millisecond timestamps: state is the pending timeout deadline
plus the emission log `(time, isTyping)`. -/

/-- Timeout duration of the source: 2000 ms. -/
def typingDuration : Nat := 2000

/-- Debouncer state: pending `typing=false` deadline and emission log. -/
structure DebounceState where
  deadline : Option Nat
  emissions : List (Nat × Bool)
deriving DecidableEq, Repr

/-- One `handleTyping` call at time `t`: first fire a pending timeout whose
deadline has already passed (emitting `typing=false` at the deadline), then
emit `typing=true` at `t` and (re)schedule the timeout.  In the scenarios of
interest no tick coincides exactly with a deadline. -/
def typingTick (s : DebounceState) (t : Nat) : DebounceState :=
  let s2 : DebounceState :=
    match s.deadline with
    | some d =>
      if d ≤ t then { deadline := none, emissions := s.emissions ++ [(d, false)] }
      else s
    | none => s
  { deadline := some (t + typingDuration),
    emissions := s2.emissions ++ [(t, true)] }

/-- Emission log of a run: `handleTyping` calls at the given increasing
times, then quiescence long enough for the last timeout to fire. -/
def runTicks (ticks : List Nat) : List (Nat × Bool) :=
  let s := ticks.foldl typingTick { deadline := none, emissions := [] }
  match s.deadline with
  | some d => s.emissions ++ [(d, false)]
  | none => s.emissions

/-! ## Shared lemmas -/

/-- Decrypting with the encrypting keystream restores the code points. -/
theorem xorStream_xorStream (key : String) : ∀ (i : Nat) (bs : List Nat),
    xorStream key i (xorStream key i bs) = bs
  | _, [] => rfl
  | i, b :: bs => by
    simp [xorStream, Nat.xor_cancel_right, xorStream_xorStream key (i + 1) bs]

/-- Reassembling the code point of a character gives that character back. -/
theorem toValidChar_toNat (c : Char) : toValidChar c.toNat = some c := by
  have h : c.toNat.isValidChar := c.valid
  have h2 : Char.ofNat c.toNat = Char.ofNatAux c.toNat h := dif_pos h
  rw [toValidChar, dif_pos h, ← h2, Char.ofNat_toNat]

/-- Decoding the encoding of a character list succeeds and is the identity. -/
theorem decodeChars_map_toNat : ∀ (cs : List Char), decodeChars (cs.map Char.toNat) = some cs
  | [] => rfl
  | c :: cs => by simp [decodeChars, toValidChar_toNat c, decodeChars_map_toNat cs]

/-- Any message in the image of `updateStatus` whose id matches carries the
incoming status, whatever its previous status was. -/
theorem status_overwrite_of_mem (msgs : List Message) (mid : String) (s : Status)
    (m : Message) (hm : m ∈ updateStatus msgs mid s) (hid : m.id = mid) :
    m.status = s := by
  unfold updateStatus at hm
  rw [List.mem_map] at hm
  obtain ⟨x, _, hx⟩ := hm
  by_cases hxid : x.id = mid
  · rw [if_pos hxid] at hx
    rw [← hx]
  · rw [if_neg hxid] at hx
    rw [← hx] at hid
    exact absurd hid hxid

/-- A successful `decryptAll` preserves the length, the order and the ids of
the delivered list. -/
theorem decryptAll_length_ids (envKey : Option String) :
    ∀ (ws : List WireMessage) (ms : List Message),
      decryptAll envKey ws = some ms →
      ms.length = ws.length ∧ ms.map Message.id = ws.map WireMessage.id
  | [], ms => by
    intro h
    simp [decryptAll] at h
    simp [← h]
  | w :: ws, ms => by
    intro h
    unfold decryptAll at h
    cases hw : decryptWire envKey w with
    | none => rw [hw] at h; exact absurd h (by simp)
    | some m =>
      rw [hw] at h
      cases hws : decryptAll envKey ws with
      | none => rw [hws] at h; exact absurd h (by simp)
      | some ms2 =>
        rw [hws] at h
        simp at h
        obtain ⟨hlen, hids⟩ := decryptAll_length_ids envKey ws ms2 hws
        have hid : m.id = w.id := by
          unfold decryptWire at hw
          cases hd : decryptMessage envKey w.content with
          | none => rw [hd] at hw; exact absurd hw (by simp)
          | some c => rw [hd] at hw; simp at hw; rw [← hw]
        subst h
        simp [hlen, hids, hid]

/-! ## Concrete fixtures for witnesses and counterexamples -/

/-- A user record. -/
def userA : UserInfo := { name := "Alice", image := "a.png" }

/-- Room A of the scenarios. -/
def roomA : Room := { id := "rA", name := "Room A", users := [] }

/-- Room B of the scenarios. -/
def roomB : Room := { id := "rB", name := "Room B", users := [] }

/-- A state with room A selected, no messages, empty draft and query. -/
def st0 : AppState :=
  { rooms := [roomA, roomB], selectedRoom := some roomA, messages := [],
    newMessage := "", isTyping := false, searchQuery := "" }

/-- The decrypted form of `wire1`. -/
def msg1 : Message :=
  { id := "m1", roomId := "rA", content := "hi", type := .text,
    createdAt := "t0", status := .sent, userId := "u1", user := userA }

/-- A wire message for room A, encrypted under the default key. -/
def wire1 : WireMessage :=
  { id := "m1", roomId := "rA", content := encryptMessage none "hi", type := .text,
    createdAt := "t0", status := .sent, userId := "u1", user := userA }

/-- A server-assigned message with content "hello" and a server id. -/
def wireSrv : WireMessage :=
  { id := "srv1", roomId := "rA", content := encryptMessage none "hello", type := .text,
    createdAt := "t1", status := .sent, userId := "u1", user := userA }

/-- A wire message whose content does not decrypt under the default key: the
single code point `0xD864` decrypts to the invalid scalar `0xD800`. -/
def wireBad : WireMessage :=
  { id := "m2", roomId := "rA", content := [0xD864], type := .text,
    createdAt := "t2", status := .sent, userId := "u1", user := userA }

/-! ## Claims -/

/-- C1, counterexample: the `'message status updated'` handler has no
monotonicity guard.  Applying the status sequence [delivered, sent] to a
message whose status is `sent` leaves its final status at `sent`, not
`delivered` as the claim states: the status regresses. -/
theorem C1_status_regresses_counterexample :
    (updateStatus (updateStatus [msg1] "m1" Status.delivered) "m1" Status.sent).map
        Message.status = [Status.sent] ∧
    Status.sent ≠ Status.delivered := by decide

/-- C1 (amended): a `'message status updated'` event overwrites the matching
message's status unconditionally — the last event wins, whatever the order
sent < delivered < read says, so the status can regress. -/
theorem C1_amended_status_overwrite (msgs : List Message) (mid : String)
    (s1 s2 : Status) (m : Message)
    (hm : m ∈ updateStatus (updateStatus msgs mid s1) mid s2) (hid : m.id = mid) :
    m.status = s2 :=
  status_overwrite_of_mem _ mid s2 m hm hid

/-- C1 (amended), witness: the double update [delivered, sent] of `msg1`
produces the member `{ msg1 with status := sent }`, whose status is `sent`. -/
theorem C1_amended_status_overwrite_witness :
    ({ msg1 with status := Status.sent } : Message).status = Status.sent :=
  C1_amended_status_overwrite [msg1] "m1" Status.delivered Status.sent
    { msg1 with status := Status.sent } (by decide) (by decide)

/-- C2, counterexample: `handleTyping` has no "already sent true" flag, so
activity ticks at t = 0 ms, 1000 ms, 2000 ms (t = 0, 0.5, 1.0 in units of
the 2000 ms timer) emit `typing=true` three times, not exactly once. -/
theorem C2_single_true_counterexample :
    ((runTicks [0, 1000, 2000]).filter fun e => e.2).length ≠ 1 := by decide

/-- C2 (amended): each activity tick re-emits `typing=true` (three times for
ticks at t = 0, 0.5, 1.0 timer units); intermediate ticks restart the timer,
and exactly one `typing=false` is emitted, at t = 1.0 plus the timer
duration. -/
theorem C2_amended_emission_log :
    runTicks [0, 1000, 2000] =
      [(0, true), (1000, true), (2000, true), (2000 + typingDuration, false)] := by
  decide

/-- C3, counterexample: the `'chat message'` handler appends without any
duplicate check, so appending the same message (same id) twice to the open
room yields two entries with that id, not one. -/
theorem C3_duplicate_append_counterexample :
    ((applyEvents none "u1" st0 [.chatMessage wire1, .chatMessage wire1]).map
        fun st => (st.messages.filter fun x => x.id == "m1").length) = some 2 ∧
    (2 : Nat) ≠ 1 := by decide

/-- C3 (amended): appending an inbound message to the open room is never
deduplicated by id: each `'chat message'` event extends the sequence by one
entry, so delivering the same message twice adds two entries with its id. -/
theorem C3_amended_append_no_dedup (envKey : Option String) (localId : String)
    (st : AppState) (w : WireMessage) (m : Message)
    (hopen : st.selectedRoom.map Room.id = some w.roomId)
    (hdec : decryptWire envKey w = some m) :
    ((applyEvents envKey localId st [.chatMessage w, .chatMessage w]).map
        fun st2 => (st2.messages.filter fun x => x.id == m.id).length)
      = some ((st.messages.filter fun x => x.id == m.id).length + 2) := by
  cases hsel : st.selectedRoom with
  | none => rw [hsel] at hopen; simp at hopen
  | some r =>
    rw [hsel] at hopen
    simp at hopen
    simp [applyEvents, applyEvent, onChatMessage, hsel, hopen, hdec,
      List.filter_append]

/-- C3 (amended), witness: delivering `wire1` twice to `st0` (room A open,
no messages) yields two entries with id "m1". -/
theorem C3_amended_append_no_dedup_witness :
    ((applyEvents none "u1" st0 [.chatMessage wire1, .chatMessage wire1]).map
        fun st2 => (st2.messages.filter fun x => x.id == msg1.id).length)
      = some ((st0.messages.filter fun x => x.id == msg1.id).length + 2) :=
  C3_amended_append_no_dedup none "u1" st0 wire1 msg1 (by decide) (by decide)

/-- C4, counterexample: `handleSendMessage` performs no optimistic append —
it only emits the cipher-text.  Sending "hello" and then receiving the
server's message with a different id and the same content leaves the room
sequence with one message, not two. -/
theorem C4_optimistic_append_counterexample :
    ((onChatMessage none (handleSendMessage none st0 MessageType.text "hello").1
        wireSrv).map fun st => st.messages.length) = some 1 ∧
    (1 : Nat) ≠ 2 := by decide

/-- C4 (amended): submitting a message locally synthesizes no provisional
message and appends nothing: `handleSendMessage` leaves `messages` unchanged
in every case, so only the later server-delivered copy enters the
sequence. -/
theorem C4_amended_send_leaves_messages (envKey : Option String) (st : AppState)
    (type : MessageType) (content : String) :
    ((handleSendMessage envKey st type content).1).messages = st.messages := by
  cases hsel : st.selectedRoom with
  | none => simp [handleSendMessage, hsel]
  | some r =>
    by_cases h : jsTrim content ≠ "" <;> simp [handleSendMessage, hsel, h]

/-- C5, counterexample: messages are kept in one flat list that room
switches never clear, and the rendered view is not filtered by room id.
After opening room A, seeding it, and switching to room B, the view still
shows the message of room A while B is active: cross-room leakage. -/
theorem C5_leakage_counterexample :
    ((applyEvents none "u1" { st0 with selectedRoom := none }
        [.selectRoom roomA, .initialMessages "rA" [wire1], .selectRoom roomB]).map
      fun st => (st.selectedRoom.map Room.id, (filteredMessages st).map Message.roomId))
      = some (some "rB", ["rA"]) ∧
    "rA" ≠ "rB" := by decide

/-- C5 (amended): switching the active room never modifies the message list
at all — so switching A → B → A with no inbound events trivially shows A's
sequence unchanged, but for the same reason B's view still shows the
previously loaded room's messages until an `'initial messages'` event for B
arrives. -/
theorem C5_amended_switch_preserves_messages (envKey : Option String)
    (localId : String) (st : AppState) (ra rb : Room) :
    applyEvents envKey localId st [.selectRoom rb, .selectRoom ra]
      = some { st with selectedRoom := some ra } := by
  simp [applyEvents, applyEvent, selectRoom]

/-- C6, counterexample: decrypting a ciphertext with a key different from
the one it was encrypted under can silently return a garbage string —
encrypting "hello" under key "a" and decrypting under key "c" returns the
string "jgnnm", not any error outcome.  The source has no
`PayloadDecryptionError` and `decryptMessage` has no error handling. -/
theorem C6_silent_garbage_counterexample :
    (some "c" : Option String) ≠ some "a" ∧
    decryptMessage (some "c") (encryptMessage (some "a") "hello") = some "jgnnm" := by
  decide

/-- C6 (amended): wrong-key decryption has no distinguishable error outcome.
It either silently returns a garbage string (key "a" versus "c" on "hello"
gives "jgnnm"), or — when the garbage fails text reassembly — the un-caught
generic malformed-data error of the cipher library crashes the caller
(result `none`); no `PayloadDecryptionError` exists anywhere. -/
theorem C6_amended_wrong_key_outcomes :
    decryptMessage (some "c") (encryptMessage (some "a") "hello") = some "jgnnm" ∧
    decryptMessage (some "㡨") (encryptMessage (some "") "h") = none := by
  decide

/-- C7, counterexample: the `'initial messages'` handler maps the decryption
over the delivered list with no per-message failure handling: one message
whose content does not decrypt crashes the whole handler (result `none`), so
nothing at all is seeded — the failing message is not retained with any
"undecryptable" sentinel, and the seeded sequence does not keep the
delivered length. -/
theorem C7_seed_crash_counterexample :
    onInitialMessages none st0 "rA" [wireBad] = none := by decide

/-- C7 (amended): seeding decrypts every delivered message; when all
decryptions succeed the room's sequence is replaced by the decrypted list,
preserving length, order and ids.  There is no sentinel for failures: a
single failing decryption crashes the handler and nothing is seeded. -/
theorem C7_amended_seed_success (envKey : Option String) (st : AppState)
    (roomId : String) (initial : List WireMessage) (ms : List Message)
    (hsel : st.selectedRoom.map Room.id = some roomId)
    (hdec : decryptAll envKey initial = some ms) :
    onInitialMessages envKey st roomId initial = some { st with messages := ms } ∧
    ms.length = initial.length ∧ ms.map Message.id = initial.map WireMessage.id := by
  refine ⟨?_, decryptAll_length_ids envKey initial ms hdec⟩
  simp [onInitialMessages, hsel, hdec]

/-- C7 (amended), witness: seeding `st0` (room A selected) with the
decryptable `wire1` replaces the sequence by `[msg1]`, with length and id
preserved. -/
theorem C7_amended_seed_success_witness :
    onInitialMessages none st0 "rA" [wire1] = some { st0 with messages := [msg1] } ∧
    ([msg1] : List Message).length = ([wire1] : List WireMessage).length ∧
    [msg1].map Message.id = [wire1].map WireMessage.id :=
  C7_amended_seed_success none st0 "rA" [wire1] [msg1] (by decide) (by decide)

/-- C8: decrypting the encryption of any plaintext under the same configured
key returns the plaintext, for every key configuration (environment key or
the default fallback). -/
theorem C8_decrypt_encrypt_roundtrip (envKey : Option String) (p : String) :
    decryptMessage envKey (encryptMessage envKey p) = some p := by
  unfold decryptMessage encryptMessage decodeCodepoints
  rw [xorStream_xorStream, decodeChars_map_toNat]
  rfl

/-- C9: the `'user typing'` handler updates the typing-presence flag exactly
when the event's identity differs from the local identity; an event carrying
the local identity leaves the whole state unchanged. -/
theorem C9_user_typing_ignores_local (localId : String) (st : AppState)
    (userId : String) (b : Bool) :
    (userId = localId → onUserTyping localId st userId b = st) ∧
    (userId ≠ localId → onUserTyping localId st userId b = { st with isTyping := b }) := by
  constructor
  · intro h
    simp [onUserTyping, h]
  · intro h
    simp [onUserTyping, h]

/-- C9, witness: with local identity "u1", an event from "u1" leaves `st0`
unchanged and an event from "u2" sets the typing flag. -/
theorem C9_user_typing_ignores_local_witness :
    onUserTyping "u1" st0 "u1" true = st0 ∧
    onUserTyping "u1" st0 "u2" true = { st0 with isTyping := true } :=
  ⟨(C9_user_typing_ignores_local "u1" st0 "u1" true).1 rfl,
   (C9_user_typing_ignores_local "u1" st0 "u2" true).2 (by decide)⟩

/-- C10: calling the send operation with blank (empty or whitespace-only)
content, or with no room selected, is a complete no-op: nothing is emitted,
and the state — messages and draft text included — is returned unchanged. -/
theorem C10_send_noop_on_blank_or_no_room (envKey : Option String)
    (st : AppState) (type : MessageType) (content : String)
    (h : jsTrim content = "" ∨ st.selectedRoom = none) :
    handleSendMessage envKey st type content = (st, []) := by
  rcases h with h | h
  · cases hsel : st.selectedRoom with
    | none => simp [handleSendMessage, hsel]
    | some r => simp [handleSendMessage, hsel, h]
  · simp [handleSendMessage, h]

/-- C10, witness: sending the whitespace-only draft "  " in `st0` (which has
room A selected) changes nothing and emits nothing. -/
theorem C10_send_noop_on_blank_or_no_room_witness :
    (jsTrim "  " = "" ∨ st0.selectedRoom = none) ∧
    handleSendMessage none st0 MessageType.text "  " = (st0, []) :=
  ⟨Or.inl (by decide),
   C10_send_noop_on_blank_or_no_room none st0 MessageType.text "  " (Or.inl (by decide))⟩
